import Mathlib

/-!
Verification development for the SHome repository: a shallow embedding of the
Duco Modbus client (src/modules/duco.py), the polling service
(src/services/duco_polling_service.py), the unified Redis publisher
(src/core/publisher.py), and the time-series collector's validity filter
(src/services/timeseries_service.py), together with theorems settling the
frozen specification claims.

Modelling conventions:
- Python floats are modelled as rationals (all arithmetic involved is exact
  decimal arithmetic, so this is faithful).
- Fallible register reads are modelled as abstract read oracles of type
  Nat -> Option Nat (input registers) or Nat -> Option Int (value reads);
  a None result is a read failure (the Python methods catch all exceptions
  and return None).
- Wall-clock time is modelled as a rational logical clock threaded through
  the write-limiting functions.
- Stateful methods are modelled as explicit state-passing functions.
-/

namespace SHome

/-! ## Time-series validity filter (src/services/timeseries_service.py, _is_valid_measurement)

The Python function takes a single value argument and no unit information.
After None/string screening it checks, in order, whether the numeric value is
in [-50,100], then [0,100], then [0,5000], returning True on the first range
that contains it and False otherwise. The string-coercion path is omitted
here; the numeric input is an Option rational (None means Python None). -/

def is_valid_measurement : Option ℚ → Bool
  | none => false
  | some x =>
    if -50 ≤ x ∧ x ≤ 100 then true
    else if 0 ≤ x ∧ x ≤ 100 then true
    else if 0 ≤ x ∧ x ≤ 5000 then true
    else false

/-- Collection guard pattern used throughout the collector
(for example lines 876-899 of timeseries_service.py): a candidate value is
appended unchanged when is_valid_measurement accepts it and skipped
otherwise. -/
def collect_valid (vs : List (Option ℚ)) : List ℚ :=
  vs.filterMap (fun v => if is_valid_measurement v then v else none)

/-! ## Temperature codec (src/modules/duco.py, _convert_temperature and
the encoding int(temperature * 10) in set_supply_temperature_zone) -/

/-- Truncation toward zero, the semantics of Python's int() applied to a
finite float/decimal value. -/
def pythonIntTrunc (q : ℚ) : ℤ := if 0 ≤ q then ⌊q⌋ else ⌈q⌉

/-- Decoder _convert_temperature: None propagates; a raw register value of
32768 or more is interpreted through the 16-bit two's complement window. -/
def convert_temperature : Option ℕ → Option ℚ
  | none => none
  | some v => some (if 32768 ≤ v then ((v : ℚ) - 65536) / 10 else (v : ℚ) / 10)

/-- Encoder: set_supply_temperature_zone computes int(temperature * 10); the
value lands on the 16-bit wire as its two's complement image, modelled by the
nonnegative remainder modulo 65536. -/
def encode_temperature (x : ℚ) : ℕ := (pythonIntTrunc (x * 10) % 65536).toNat

/-! ## Write rate limiting (src/modules/duco.py, _enforce_write_limit and
write_register) -/

/-- WRITE_INTERVAL class constant: seconds between writes. -/
def WRITE_INTERVAL : ℚ := 2

/-- Model of _enforce_write_limit: given the stored _last_write_time and the
current clock, the function sleeps exactly long enough that the write
proceeds no earlier than last + WRITE_INTERVAL, and the returned value is the
new _last_write_time, namely the instant the write goes ahead. -/
def enforce_write_limit (lastWriteTime now : ℚ) : ℚ :=
  if now - lastWriteTime < WRITE_INTERVAL then lastWriteTime + WRITE_INTERVAL else now

/-- Model of write_register: the limiter runs first (state update independent
of the I/O outcome); the Modbus I/O outcome is abstracted as the Boolean
ioResult (False covers both an error response and an exception). Result is
(returned Boolean, new _last_write_time). -/
def write_register (lastWriteTime now : ℚ) (ioResult : Bool) : Bool × ℚ :=
  (ioResult, enforce_write_limit lastWriteTime now)

/-! ## Unified Redis publisher (src/core/publisher.py) -/

/-- Abstract Redis state: an association list of keyed values (newest first)
and the list of pub/sub messages delivered so far as (channel, payload). -/
structure RedisKV where
  store : List (String × String)
  channels : List (String × String)
deriving DecidableEq

/-- Model of publish_device for a record that serializes successfully: the
primary keyed write always happens first (set/setex at lines 136-139); if
pub/sub is enabled the same payload is then published on the derived channel.
Both statements sit in one try block whose handler returns False, so a
pub/sub exception (pubsubRaises) is caught and the method reports False even
though the keyed write has already taken effect and is not undone. -/
def publish_device (kv : RedisKV) (enable_pubsub : Bool) (key payload : String)
    (pubsubRaises : Bool) : Bool × RedisKV :=
  let kv1 : RedisKV := { kv with store := (key, payload) :: kv.store }
  if enable_pubsub then
    if pubsubRaises then (false, kv1)
    else (true, { kv1 with channels := ("updates:" ++ key, payload) :: kv1.channels })
  else (true, kv1)

/-- KEY_PATTERNS entry for a DucoBox system record, instantiated: Python
template string with the device_id wildcard substituted by str.format. -/
def KEY_PATTERNS_ducobox_system (device_id : String) : String :=
  "duco:system:" ++ device_id

/-- KEY_PATTERNS entry for a Duco node record, instantiated. -/
def KEY_PATTERNS_duco_node (node_id : ℕ) : String :=
  "duco:node:" ++ toString node_id

/-- KEY_PATTERNS entry for a Niko smart device record, instantiated. -/
def KEY_PATTERNS_niko_device (device_uuid : String) : String :=
  "niko:device:" ++ device_uuid

/-- KEY_PATTERNS entry for a Niko location record, instantiated. -/
def KEY_PATTERNS_niko_location (location_uuid : String) : String :=
  "niko:location:" ++ location_uuid

/-- Model of _build_key applied to an already-instantiated pattern: the
configured namespace prefix is prepended when it is set and truthy (a missing
prefix is None; an empty string is falsy in Python and is not prepended). -/
def build_key ( key_prefix : Option String) (key : String) : String :=
  match key_prefix with
  | some p => if p = "" then key else p ++ ":" ++ key
  | none => key

/-- Device id used by the polling service for the DucoBox singleton. -/
def mainDeviceId : String := "ducobox_main"

/-- Example configured namespace prefix from the repository's usage examples. -/
def smarthomePrefix : String := "smarthome"

/-! ## Node types and capabilities (src/modules/duco.py) -/

/-- NodeType enumeration from src/modules/duco.py (a plain Python Enum). -/
inductive NodeType where
  | UNKNOWN
  | DUCOTRONIC_GRILLE
  | CONTROL_SWITCH_RF_BAT
  | CONTROL_SWITCH_RF_WIRED
  | HUMIDITY_ROOM_SENSOR
  | CO2_ROOM_SENSOR
  | SENSORLESS_VALVE
  | HUMIDITY_VALVE
  | CO2_VALVE
  | DUCOBOX
  | SWITCH_CONTACT
  | IAV_VALVE
  | IAV_HUMIDITY
  | IAV_CO2
  | CONTROL_UNIT
  | CO2_RH_VALVE
  | SUN_CONTROL_SWITCH
  | VENTILATIVE_COOLING_SWITCH
  | EXTERNAL_MULTIZONE_VALVE
  | HUMIDITY_BOX_SENSOR
  | CO2_BOX_SENSOR
  | MOTOR_RELAY
  | WEATHER_STATION
  | MODBUS_MOTOR
  | DIGITAL_INPUT
  | DIGITAL_OUTPUT
  | MODBUS_RELAY
  | PERILEX
  | RELAY_OUTPUT
deriving DecidableEq

/-- Partial decoding of a raw register value into a NodeType, the semantics
of the Python constructor call NodeType(value): None models the ValueError
raised for a code outside the enumeration. -/
def NodeType.ofCode : ℕ → Option NodeType
  | 0 => some .UNKNOWN
  | 7 => some .DUCOTRONIC_GRILLE
  | 8 => some .CONTROL_SWITCH_RF_BAT
  | 9 => some .CONTROL_SWITCH_RF_WIRED
  | 10 => some .HUMIDITY_ROOM_SENSOR
  | 12 => some .CO2_ROOM_SENSOR
  | 13 => some .SENSORLESS_VALVE
  | 14 => some .HUMIDITY_VALVE
  | 16 => some .CO2_VALVE
  | 17 => some .DUCOBOX
  | 18 => some .SWITCH_CONTACT
  | 22 => some .IAV_VALVE
  | 23 => some .IAV_HUMIDITY
  | 25 => some .IAV_CO2
  | 27 => some .CONTROL_UNIT
  | 28 => some .CO2_RH_VALVE
  | 29 => some .SUN_CONTROL_SWITCH
  | 30 => some .VENTILATIVE_COOLING_SWITCH
  | 31 => some .EXTERNAL_MULTIZONE_VALVE
  | 35 => some .HUMIDITY_BOX_SENSOR
  | 37 => some .CO2_BOX_SENSOR
  | 38 => some .MOTOR_RELAY
  | 39 => some .WEATHER_STATION
  | 40 => some .MODBUS_MOTOR
  | 41 => some .DIGITAL_INPUT
  | 42 => some .DIGITAL_OUTPUT
  | 44 => some .MODBUS_RELAY
  | 45 => some .PERILEX
  | 46 => some .RELAY_OUTPUT
  | _ => none

/-- NodeCapabilities dataclass: every field defaults to False. -/
structure NodeCapabilities where
  has_remaining_time : Bool := false
  has_flow_level : Bool := false
  has_air_quality_rh : Bool := false
  has_air_quality_co2 : Bool := false
  has_humidity : Bool := false
  has_co2 : Bool := false
  can_set_mode : Bool := false
  can_identify : Bool := false
  has_oda : Bool := false
  has_sup : Bool := false
  has_eta : Bool := false
  has_eha : Bool := false
deriving DecidableEq

/-- NODE_CAPABILITIES dictionary: node types without an entry map to None
(dict.get default). -/
def NODE_CAPABILITIES : NodeType → Option NodeCapabilities
  | .CONTROL_SWITCH_RF_BAT =>
      some { has_remaining_time := true, can_set_mode := true, can_identify := true }
  | .CONTROL_SWITCH_RF_WIRED =>
      some { has_remaining_time := true, can_set_mode := true, can_identify := true }
  | .HUMIDITY_ROOM_SENSOR =>
      some { has_air_quality_rh := true, has_humidity := true,
             can_set_mode := true, can_identify := true }
  | .CO2_ROOM_SENSOR =>
      some { has_air_quality_co2 := true, has_co2 := true,
             can_set_mode := true, can_identify := true }
  | .SENSORLESS_VALVE =>
      some { has_remaining_time := true, has_flow_level := true,
             can_set_mode := true, can_identify := true }
  | .HUMIDITY_VALVE =>
      some { has_remaining_time := true, has_flow_level := true,
             has_air_quality_rh := true, has_humidity := true,
             can_set_mode := true, can_identify := true }
  | .CO2_VALVE =>
      some { has_remaining_time := true, has_flow_level := true,
             has_air_quality_co2 := true, has_co2 := true,
             can_set_mode := true, can_identify := true }
  | .SWITCH_CONTACT =>
      some { has_remaining_time := true, can_identify := true }
  | .IAV_VALVE =>
      some { has_remaining_time := true, has_flow_level := true,
             can_set_mode := true, can_identify := true }
  | .IAV_HUMIDITY =>
      some { has_remaining_time := true, has_flow_level := true,
             has_air_quality_rh := true, has_humidity := true,
             can_set_mode := true, can_identify := true }
  | .IAV_CO2 =>
      some { has_remaining_time := true, has_flow_level := true,
             has_air_quality_co2 := true, has_co2 := true,
             can_set_mode := true, can_identify := true }
  | .CO2_RH_VALVE =>
      some { has_remaining_time := true, has_flow_level := true,
             has_air_quality_rh := true, has_air_quality_co2 := true,
             has_humidity := true, has_co2 := true,
             can_set_mode := true, can_identify := true }
  | .HUMIDITY_BOX_SENSOR =>
      some { has_humidity := true, can_set_mode := true }
  | .CO2_BOX_SENSOR =>
      some { has_co2 := true, can_set_mode := true }
  | .DUCOTRONIC_GRILLE =>
      some { has_flow_level := true, has_humidity := true,
             can_set_mode := true, can_identify := true }
  | _ => none

/-- Model of _get_node_capabilities given the (already resolved) node type:
plain Enum members are always truthy in Python, so the None check is the only
gate before the dictionary lookup. -/
def get_node_capabilities (nt : Option NodeType) : Option NodeCapabilities :=
  nt.bind NODE_CAPABILITIES

/-- Register address of a node-scoped parameter (_node_register). -/
def node_register (node param : ℕ) : ℕ := node * 100 + param

/-! Per-parameter node getters. Each takes the resolved node type (the result
get_node_type would return, cached and therefore stable across the calls of
one poll) and a read oracle over absolute register addresses. The Python
pattern is: if caps is truthy and the flag is False, return None; otherwise
perform the register read. -/

/-- Model of get_node_remaining_time (parameter offset 2). -/
def get_node_remaining_time (nt : Option NodeType) (node : ℕ)
    (reads : ℕ → Option ℤ) : Option ℤ :=
  match get_node_capabilities nt with
  | some caps =>
      if caps.has_remaining_time = false then none else reads (node_register node 2)
  | none => reads (node_register node 2)

/-- Model of get_node_flow_level (parameter offset 3). -/
def get_node_flow_level (nt : Option NodeType) (node : ℕ)
    (reads : ℕ → Option ℤ) : Option ℤ :=
  match get_node_capabilities nt with
  | some caps =>
      if caps.has_flow_level = false then none else reads (node_register node 3)
  | none => reads (node_register node 3)

/-- Model of get_node_air_quality_rh (parameter offset 4). -/
def get_node_air_quality_rh (nt : Option NodeType) (node : ℕ)
    (reads : ℕ → Option ℤ) : Option ℤ :=
  match get_node_capabilities nt with
  | some caps =>
      if caps.has_air_quality_rh = false then none else reads (node_register node 4)
  | none => reads (node_register node 4)

/-- Model of get_node_air_quality_co2 (parameter offset 5). -/
def get_node_air_quality_co2 (nt : Option NodeType) (node : ℕ)
    (reads : ℕ → Option ℤ) : Option ℤ :=
  match get_node_capabilities nt with
  | some caps =>
      if caps.has_air_quality_co2 = false then none else reads (node_register node 5)
  | none => reads (node_register node 5)

/-- Model of get_node_humidity (parameter offset 9). -/
def get_node_humidity (nt : Option NodeType) (node : ℕ)
    (reads : ℕ → Option ℤ) : Option ℤ :=
  match get_node_capabilities nt with
  | some caps =>
      if caps.has_humidity = false then none else reads (node_register node 9)
  | none => reads (node_register node 9)

/-- Model of get_node_co2 (parameter offset 10). -/
def get_node_co2 (nt : Option NodeType) (node : ℕ)
    (reads : ℕ → Option ℤ) : Option ℤ :=
  match get_node_capabilities nt with
  | some caps =>
      if caps.has_co2 = false then none else reads (node_register node 10)
  | none => reads (node_register node 10)

/-- Dictionary returned by get_node_info, as a record: a key absent from the
Python dict is a None field here. node_id and type are always present. -/
structure NodeInfo where
  node_id : ℕ
  type : NodeType
  remaining_time_seconds : Option ℤ := none
  flow_level_percent : Option ℤ := none
  air_quality_rh_percent : Option ℤ := none
  air_quality_co2_percent : Option ℤ := none
  humidity_percent : Option ℤ := none
  co2_ppm : Option ℤ := none
deriving DecidableEq

/-- Model of get_node_info: an unresolved node type yields the empty dict
(None here); a resolved type with no capability entry yields a dict holding
only node_id and type; otherwise each optional key is populated from the
matching getter exactly when its capability flag is set and the getter
returns a value. -/
def get_node_info (node : ℕ) (nt : Option NodeType) (reads : ℕ → Option ℤ) :
    Option NodeInfo :=
  match nt with
  | none => none
  | some t =>
    match NODE_CAPABILITIES t with
    | none => some { node_id := node, type := t }
    | some caps =>
      some {
        node_id := node
        type := t
        remaining_time_seconds :=
          if caps.has_remaining_time then get_node_remaining_time (some t) node reads
          else none
        flow_level_percent :=
          if caps.has_flow_level then get_node_flow_level (some t) node reads
          else none
        air_quality_rh_percent :=
          if caps.has_air_quality_rh then get_node_air_quality_rh (some t) node reads
          else none
        air_quality_co2_percent :=
          if caps.has_air_quality_co2 then get_node_air_quality_co2 (some t) node reads
          else none
        humidity_percent :=
          if caps.has_humidity then get_node_humidity (some t) node reads
          else none
        co2_ppm :=
          if caps.has_co2 then get_node_co2 (some t) node reads
          else none }

/-- Error message raised (as a ValueError) by set_node_ventilation_mode for a
node whose capabilities exclude mode setting; the Python message also
interpolates the node id. -/
def mode_unsupported_message : String := "does not support ventilation mode setting"

/-- Model of set_node_ventilation_mode: result is (outcome, write attempted).
The outcome is Except.error for the raised ValueError and Except.ok of the
Boolean returned by write_register otherwise (the write I/O abstracted by
ioResult). There is no force parameter in the Python signature. -/
def set_node_ventilation_mode (nt : Option NodeType) (mode : ℕ) (ioResult : Bool) :
    Except String Bool × Bool :=
  match get_node_capabilities nt with
  | some caps =>
      if caps.can_set_mode = false then (Except.error mode_unsupported_message, false)
      else (Except.ok ioResult, true)
  | none => (Except.ok ioResult, true)

/-- Model of identify_node: result is (returned Boolean, write attempted).
With force False a capability profile that excludes identification short
circuits to False before the write; otherwise the write proceeds and its
outcome ioResult is returned. -/
def identify_node (nt : Option NodeType) (force : Bool) (ioResult : Bool) :
    Bool × Bool :=
  if force = false then
    match get_node_capabilities nt with
    | some caps => if caps.can_identify = false then (false, false) else (ioResult, true)
    | none => (ioResult, true)
  else (ioResult, true)

/-- One call of get_node_type against an explicit cache state: result is
(returned value, new cache, whether the type register was read). A cache hit
returns the cached value without a read; on a miss the register is read, a
recognized code is cached, an unrecognized code is cached as UNKNOWN
(the ValueError branch), and a failed read caches nothing. -/
def get_node_type_step (cache : ℕ → Option NodeType) (node : ℕ) (read : Option ℕ) :
    Option NodeType × (ℕ → Option NodeType) × Bool :=
  match cache node with
  | some t => (some t, cache, false)
  | none =>
    match read with
    | some v =>
      match NodeType.ofCode v with
      | some t => (some t, fun n => if n = node then some t else cache n, true)
      | none =>
          (some NodeType.UNKNOWN,
           fun n => if n = node then some NodeType.UNKNOWN else cache n, true)
    | none => (none, cache, true)

/-! ## Network discovery (src/modules/duco.py, get_active_nodes) -/

/-- Node ids contributed by one discovery bitfield register: the loop over
bits 0..15 appends reg * 16 + bit for each set bit that lands in [1,143]
(the Python test value & (1 << bit) is truthy exactly when nonzero). -/
def nodes_of_register (reg value : ℕ) : List ℕ :=
  (List.range 16).filterMap (fun bit =>
    if value &&& (1 <<< bit) ≠ 0 then
      if 1 ≤ reg * 16 + bit ∧ reg * 16 + bit ≤ 143 then some (reg * 16 + bit)
      else none
    else none)

/-- Contribution of one register read: a failed read contributes nothing. -/
def nodes_of_read (read : ℕ → Option ℕ) (reg : ℕ) : List ℕ :=
  match read reg with
  | none => []
  | some value => nodes_of_register reg value

/-- Model of the get_active_nodes accumulation over registers 0..8, before
the final sorted() call. -/
def get_active_nodes_unsorted (read : ℕ → Option ℕ) : List ℕ :=
  (List.range 9).flatMap (nodes_of_read read)

/-- Model of get_active_nodes: the accumulated ids, sorted ascending. -/
def get_active_nodes (read : ℕ → Option ℕ) : List ℕ :=
  List.insertionSort (· ≤ ·) (get_active_nodes_unsorted read)

/-! ## Node polling (src/services/duco_polling_service.py, _poll_nodes) -/

/-- DucoNode record as populated by _poll_nodes (the derived node_type_name
string field is omitted; it duplicates node_type). -/
structure DucoNode where
  device_id : String
  node_id : ℕ
  node_type : NodeType
  remaining_time_current_mode : Option ℤ := none
  flow_rate : Option ℤ := none
  air_quality_rh : Option ℤ := none
  air_quality_co2 : Option ℤ := none
  humidity_level : Option ℤ := none
  co2_level : Option ℤ := none
deriving DecidableEq

/-- The has_data guard of _poll_nodes: at least one of the six optional
fields is populated. -/
def hasData (n : DucoNode) : Bool :=
  n.remaining_time_current_mode.isSome || n.flow_rate.isSome ||
  n.air_quality_rh.isSome || n.air_quality_co2.isSome ||
  n.humidity_level.isSome || n.co2_level.isSome

/-- Model of _poll_nodes: nodeTypeOf abstracts get_node_type (stable within
one poll thanks to the node-type cache). For each active node id: skip when
the type is unresolved, skip the DucoBox itself, build the record from the
get_node_info dict, and append it to the batch only when has_data holds. The
returned list is exactly the nodes_to_publish batch handed to
publish_duco_network. -/
def poll_nodes (nodeTypeOf : ℕ → Option NodeType) (reads : ℕ → Option ℤ)
    (active : List ℕ) : List DucoNode :=
  active.filterMap (fun nid =>
    match nodeTypeOf nid with
    | none => none
    | some nt =>
      if nt = NodeType.DUCOBOX then none
      else
        match get_node_info nid (some nt) reads with
        | none => none
        | some info =>
          let node : DucoNode := {
            device_id := "node_" ++ toString nid
            node_id := nid
            node_type := nt
            remaining_time_current_mode := info.remaining_time_seconds
            flow_rate := info.flow_level_percent
            air_quality_rh := info.air_quality_rh_percent
            air_quality_co2 := info.air_quality_co2_percent
            humidity_level := info.humidity_percent
            co2_level := info.co2_ppm }
          if hasData node then some node else none)

/-- Read oracle that answers every register read with 42, used as a concrete
input in witnesses. -/
def allReads42 : ℕ → Option ℤ := fun _ => some 42

/-! ## Theorems -/

/-- Claim C1, counterexample: the claim asserts that a humidity reading of
150 is rejected as outside [0,100]; the validity check accepts 150, because
the function receives no unit information and 150 lies inside the ppm range
[0,5000] checked third. -/
theorem is_valid_measurement_accepts_150 :
    is_valid_measurement (some 150) = true := by
  norm_num [is_valid_measurement]

/-- Claim C1, amended: _is_valid_measurement is unit-agnostic; it accepts a
numeric value exactly when the value lies in [-50,5000], the union of the
three ranges tried in order. Hence -60 and 6000 are rejected, the boundary
values 100, -50 and 5000 are accepted, and a humidity reading of 150 is
accepted as well. A value failing the check is dropped by the collection
guard (and an accepted value is passed through unchanged, never clamped). -/
theorem is_valid_measurement_range_union :
    (∀ x : ℚ, is_valid_measurement (some x) = true ↔ (-50 ≤ x ∧ x ≤ 5000)) ∧
    is_valid_measurement none = false ∧
    is_valid_measurement (some (-60)) = false ∧
    is_valid_measurement (some 6000) = false ∧
    is_valid_measurement (some 100) = true ∧
    is_valid_measurement (some (-50)) = true ∧
    is_valid_measurement (some 5000) = true ∧
    (∀ (vs : List (Option ℚ)) (x : ℚ), x ∈ collect_valid vs →
      some x ∈ vs ∧ -50 ≤ x ∧ x ≤ 5000) := by
  have hiff : ∀ x : ℚ, is_valid_measurement (some x) = true ↔ (-50 ≤ x ∧ x ≤ 5000) := by
    intro x
    simp only [is_valid_measurement]
    split_ifs with h1 h2 h3
    · simp only [true_iff]
      exact ⟨h1.1, le_trans h1.2 (by norm_num)⟩
    · simp only [true_iff]
      exact ⟨le_trans (by norm_num) h2.1, le_trans h2.2 (by norm_num)⟩
    · simp only [true_iff]
      exact ⟨le_trans (by norm_num) h3.1, h3.2⟩
    · simp only [Bool.false_eq_true, false_iff, not_and, not_le]
      intro ha
      push_neg at h1 h2 h3
      have h100 := h1 ha
      have h5000 := h3 (by linarith)
      linarith
  refine ⟨hiff, rfl, ?_, ?_, ?_, ?_, ?_, ?_⟩
  · norm_num [is_valid_measurement]
  · norm_num [is_valid_measurement]
  · norm_num [is_valid_measurement]
  · norm_num [is_valid_measurement]
  · norm_num [is_valid_measurement]
  · intro vs x hx
    rw [collect_valid, List.mem_filterMap] at hx
    obtain ⟨a, ha, hfa⟩ := hx
    by_cases hv : is_valid_measurement a = true
    · rw [if_pos hv] at hfa
      subst hfa
      exact ⟨ha, (hiff x).1 hv⟩
    · rw [if_neg hv] at hfa
      exact absurd hfa (by simp)

/-- Claim C1, witness for the amended theorem at the concrete inputs 150 and
the list with entries 150 and 6000. -/
theorem is_valid_measurement_range_union_witness :
    (is_valid_measurement (some 150) = true ↔ (-50 ≤ (150 : ℚ) ∧ (150 : ℚ) ≤ 5000)) ∧
    (some (150 : ℚ) ∈ ([some 150, some 6000] : List (Option ℚ)) ∧
      -50 ≤ (150 : ℚ) ∧ (150 : ℚ) ≤ 5000) :=
  ⟨is_valid_measurement_range_union.1 150,
   is_valid_measurement_range_union.2.2.2.2.2.2.2 [some 150, some 6000] 150 (by
     norm_num [collect_valid, is_valid_measurement, List.filterMap])⟩

/-- Claim C5: for two consecutive write_register calls on the same client,
the instants at which the two underlying writes proceed (the stored
_last_write_time values) are separated by at least WRITE_INTERVAL = 2
seconds, whatever registers are involved and whatever the first write's
outcome; a request arriving sooner is delayed until the gap has elapsed
(the second write proceeds no earlier than its request time and its result
is the I/O outcome, never a timing rejection), and the limiter's state
update is identical whether the first write succeeded or failed. -/
theorem write_register_rate_limit (last t1 t2 : ℚ) (io1 io2 : Bool) :
    WRITE_INTERVAL ≤
      (write_register (write_register last t1 io1).2 t2 io2).2 -
        (write_register last t1 io1).2 ∧
    t2 ≤ (write_register (write_register last t1 io1).2 t2 io2).2 ∧
    (write_register (write_register last t1 io1).2 t2 io2).1 = io2 ∧
    (write_register last t1 true).2 = (write_register last t1 false).2 := by
  refine ⟨?_, ?_, rfl, rfl⟩ <;>
    · simp only [write_register, enforce_write_limit, WRITE_INTERVAL]
      split_ifs <;> linarith

/-- Claim C6, counterexample: with pub/sub enabled, a pub/sub publish
exception after a successful primary keyed write makes publish_device report
failure — the method returns False even though the keyed write took effect —
contradicting the fire-and-forget claim. -/
theorem publish_device_pubsub_failure_reports_false :
    (publish_device ⟨[], []⟩ true mainDeviceId smarthomePrefix true).1 = false ∧
    (publish_device ⟨[], []⟩ true mainDeviceId smarthomePrefix true).2.store =
      [(mainDeviceId, smarthomePrefix)] :=
  ⟨rfl, rfl⟩

/-- Claim C6, amended: the derived notification channel is "updates:" ++ key
and the notification is only attempted after the primary keyed write, which
is never undone by a notification failure; however, because the pub/sub
publish sits in the same try block as the write, an exception from it is
caught and publish_device returns False even when the keyed write succeeded,
so a pub/sub failure does cause the operation to report failure. -/
theorem publish_device_spec (kv : RedisKV) (key payload : String) :
    (publish_device kv true key payload false).1 = true ∧
    (publish_device kv true key payload false).2.store = (key, payload) :: kv.store ∧
    (publish_device kv true key payload false).2.channels =
      ("updates:" ++ key, payload) :: kv.channels ∧
    (publish_device kv true key payload true).1 = false ∧
    (publish_device kv true key payload true).2.store = (key, payload) :: kv.store ∧
    (publish_device kv true key payload true).2.channels = kv.channels ∧
    (publish_device kv false key payload true).1 = true :=
  ⟨rfl, rfl, rfl, rfl, rfl, rfl, rfl⟩

/-- Claim C7, counterexample: the key for a ventilation system record is
built from the template duco:system:... , not ventilation:system:... as the
claim states. -/
theorem build_key_uses_duco_prefix :
    build_key none (KEY_PATTERNS_ducobox_system mainDeviceId) = "duco:system:ducobox_main" ∧
    "duco:system:ducobox_main" ≠ "ventilation:system:ducobox_main" :=
  ⟨rfl, by decide⟩

/-- Claim C7, amended: the key templates are duco:system:(device_id),
duco:node:(node_id), niko:device:(device_uuid) and
niko:location:(location_uuid), and a configured nonempty namespace prefix p
is prepended uniformly as p ++ ":" ++ key to every resolved key (no prefix
configured leaves every key unchanged). -/
theorem build_key_spec (p devId uuid luuid : String) (nid : ℕ) (hp : p ≠ "") :
    build_key (some p) (KEY_PATTERNS_ducobox_system devId) =
      p ++ ":" ++ ("duco:system:" ++ devId) ∧
    build_key (some p) (KEY_PATTERNS_duco_node nid) =
      p ++ ":" ++ ("duco:node:" ++ toString nid) ∧
    build_key (some p) (KEY_PATTERNS_niko_device uuid) =
      p ++ ":" ++ ("niko:device:" ++ uuid) ∧
    build_key (some p) (KEY_PATTERNS_niko_location luuid) =
      p ++ ":" ++ ("niko:location:" ++ luuid) ∧
    build_key none (KEY_PATTERNS_ducobox_system devId) = "duco:system:" ++ devId ∧
    build_key none (KEY_PATTERNS_duco_node nid) = "duco:node:" ++ toString nid ∧
    build_key none (KEY_PATTERNS_niko_device uuid) = "niko:device:" ++ uuid ∧
    build_key none (KEY_PATTERNS_niko_location luuid) = "niko:location:" ++ luuid := by
  simp [build_key, KEY_PATTERNS_ducobox_system, KEY_PATTERNS_duco_node,
    KEY_PATTERNS_niko_device, KEY_PATTERNS_niko_location, hp]

/-- Claim C7, witness for the amended theorem at the prefix smarthome and
concrete identifiers. -/
theorem build_key_spec_witness :
    build_key (some smarthomePrefix) (KEY_PATTERNS_ducobox_system mainDeviceId) =
      smarthomePrefix ++ ":" ++ ("duco:system:" ++ mainDeviceId) ∧
    build_key (some smarthomePrefix) (KEY_PATTERNS_duco_node 5) =
      smarthomePrefix ++ ":" ++ ("duco:node:" ++ toString 5) ∧
    build_key (some smarthomePrefix) (KEY_PATTERNS_niko_device mainDeviceId) =
      smarthomePrefix ++ ":" ++ ("niko:device:" ++ mainDeviceId) ∧
    build_key (some smarthomePrefix) (KEY_PATTERNS_niko_location mainDeviceId) =
      smarthomePrefix ++ ":" ++ ("niko:location:" ++ mainDeviceId) ∧
    build_key none (KEY_PATTERNS_ducobox_system mainDeviceId) =
      "duco:system:" ++ mainDeviceId ∧
    build_key none (KEY_PATTERNS_duco_node 5) = "duco:node:" ++ toString 5 ∧
    build_key none (KEY_PATTERNS_niko_device mainDeviceId) =
      "niko:device:" ++ mainDeviceId ∧
    build_key none (KEY_PATTERNS_niko_location mainDeviceId) =
      "niko:location:" ++ mainDeviceId :=
  build_key_spec smarthomePrefix mainDeviceId mainDeviceId mainDeviceId 5 (by decide)

/-- Claim C9, counterexample: for a SWITCH_CONTACT node (whose capability
profile excludes mode setting), set_node_ventilation_mode rejects the
request before the write but surfaces the rejection by raising a ValueError,
not by returning a Boolean failure, and its signature has no force flag;
this contradicts the claim for the mode-set operation. -/
theorem set_node_mode_raises_exception :
    set_node_ventilation_mode (some NodeType.SWITCH_CONTACT) 4 true =
      (Except.error mode_unsupported_message, false) :=
  rfl

/-- Claim C9, amended: a capability-mismatch rejection always happens before
the write I/O, but the two operations surface it differently: identify_node
(without force) returns the Boolean False and can be overridden by its force
flag, while set_node_ventilation_mode raises a ValueError and offers no
force flag. -/
theorem capability_write_rejection_spec :
    (∀ (nt : Option NodeType) (caps : NodeCapabilities) (mode : ℕ) (io : Bool),
      get_node_capabilities nt = some caps → caps.can_set_mode = false →
      set_node_ventilation_mode nt mode io = (Except.error mode_unsupported_message, false)) ∧
    (∀ (nt : Option NodeType) (caps : NodeCapabilities) (io : Bool),
      get_node_capabilities nt = some caps → caps.can_identify = false →
      identify_node nt false io = (false, false)) ∧
    (∀ (nt : Option NodeType) (io : Bool), identify_node nt true io = (io, true)) := by
  refine ⟨?_, ?_, ?_⟩
  · intro nt caps mode io hcaps hmode
    simp [set_node_ventilation_mode, hcaps, hmode]
  · intro nt caps io hcaps hid
    simp [identify_node, hcaps, hid]
  · intro nt io
    simp [identify_node]

/-- Claim C9, witness: the amended theorem applied to a SWITCH_CONTACT node
(mode setting unsupported), a HUMIDITY_BOX_SENSOR node (identification
unsupported), and a forced identify on a HUMIDITY_BOX_SENSOR node. -/
theorem capability_write_rejection_spec_witness :
    set_node_ventilation_mode (some NodeType.SWITCH_CONTACT) 4 true =
      (Except.error mode_unsupported_message, false) ∧
    identify_node (some NodeType.HUMIDITY_BOX_SENSOR) false true = (false, false) ∧
    identify_node (some NodeType.HUMIDITY_BOX_SENSOR) true false = (false, true) :=
  ⟨capability_write_rejection_spec.1 (some NodeType.SWITCH_CONTACT)
      { has_remaining_time := true, can_identify := true } 4 true rfl rfl,
   capability_write_rejection_spec.2.1 (some NodeType.HUMIDITY_BOX_SENSOR)
      { has_humidity := true, can_set_mode := true } true rfl rfl,
   capability_write_rejection_spec.2.2 (some NodeType.HUMIDITY_BOX_SENSOR) false⟩

/-- Claim C10: the node-type cache is never invalidated or overwritten: a
cache hit returns the identical cached value with no register read and no
cache change; once a call has returned any resolved type (including UNKNOWN
decoded from an unrecognized code, which is cached too), every later call
for that node returns that same value without reading; existing entries for
other nodes are never removed or changed by a call; and only a failed read
leaves the cache unset, so a later call performs the read again. -/
theorem get_node_type_cache_spec :
    (∀ (cache : ℕ → Option NodeType) (node : ℕ) (read : Option ℕ) (t : NodeType),
      cache node = some t →
      get_node_type_step cache node read = (some t, cache, false)) ∧
    (∀ (cache : ℕ → Option NodeType) (node : ℕ) (read : Option ℕ) (t : NodeType),
      (get_node_type_step cache node read).1 = some t →
      ∀ read2 : Option ℕ,
        get_node_type_step (get_node_type_step cache node read).2.1 node read2 =
          (some t, (get_node_type_step cache node read).2.1, false)) ∧
    (∀ (cache : ℕ → Option NodeType) (node n : ℕ) (read : Option ℕ) (t : NodeType),
      cache n = some t → (get_node_type_step cache node read).2.1 n = some t) ∧
    (∀ (cache : ℕ → Option NodeType) (node v : ℕ),
      cache node = none → NodeType.ofCode v = none →
      (get_node_type_step cache node (some v)).1 = some NodeType.UNKNOWN ∧
      (get_node_type_step cache node (some v)).2.1 node = some NodeType.UNKNOWN ∧
      (get_node_type_step cache node (some v)).2.2 = true) ∧
    (∀ (cache : ℕ → Option NodeType) (node : ℕ),
      cache node = none →
      get_node_type_step cache node none = (none, cache, true)) := by
  have hit : ∀ (cache : ℕ → Option NodeType) (node : ℕ) (read : Option ℕ) (t : NodeType),
      cache node = some t →
      get_node_type_step cache node read = (some t, cache, false) := by
    intro cache node read t h
    simp [get_node_type_step, h]
  refine ⟨hit, ?_, ?_, ?_, ?_⟩
  · intro cache node read t h1 read2
    apply hit
    rcases hc : cache node with _ | t0
    · rcases hr : read with _ | v
      · simp [get_node_type_step, hc, hr] at h1
      · rcases ho : NodeType.ofCode v with _ | t1 <;>
          · simp [get_node_type_step, hc, hr, ho] at h1 ⊢
            simpa using h1
    · have := hit cache node read t0 hc
      rw [this] at h1 ⊢
      simpa [hc] using h1
  · intro cache node n read t h
    rcases hc : cache node with _ | t0
    · rcases hr : read with _ | v
      · simpa [get_node_type_step, hc, hr] using h
      · rcases ho : NodeType.ofCode v with _ | t1 <;>
          · simp only [get_node_type_step, hc, hr, ho]
            by_cases hn : n = node
            · subst hn
              rw [hc] at h
              exact absurd h (by simp)
            · simpa [hn] using h
    · simpa [hit cache node read t0 hc] using h
  · intro cache node v hc ho
    simp [get_node_type_step, hc, ho]
  · intro cache node hc
    simp [get_node_type_step, hc]

/-- Claim C10, witness: the cache-spec theorem applied at concrete caches,
node 5, and the unrecognized type code 99. -/
theorem get_node_type_cache_spec_witness :
    get_node_type_step (fun n => if n = 5 then some NodeType.DUCOBOX else none) 5
      (some 99) =
      (some NodeType.DUCOBOX, (fun n => if n = 5 then some NodeType.DUCOBOX else none),
        false) ∧
    get_node_type_step (get_node_type_step (fun _ => none) 7 (some 99)).2.1 7 none =
      (some NodeType.UNKNOWN, (get_node_type_step (fun _ => none) 7 (some 99)).2.1,
        false) ∧
    (get_node_type_step (fun n => if n = 5 then some NodeType.DUCOBOX else none) 7
      (some 99)).2.1 5 = some NodeType.DUCOBOX ∧
    (get_node_type_step (fun _ => none) 7 (some 99)).1 = some NodeType.UNKNOWN ∧
    get_node_type_step (fun _ => none) 7 none = (none, (fun _ => none), true) :=
  ⟨get_node_type_cache_spec.1 _ 5 (some 99) NodeType.DUCOBOX rfl,
   get_node_type_cache_spec.2.1 (fun _ => none) 7 (some 99) NodeType.UNKNOWN rfl none,
   get_node_type_cache_spec.2.2.1 _ 7 5 (some 99) NodeType.DUCOBOX rfl,
   (get_node_type_cache_spec.2.2.2.1 (fun _ => none) 7 99 rfl rfl).1,
   get_node_type_cache_spec.2.2.2.2 (fun _ => none) 7 rfl⟩

/-- Claim C8, counterexample: for a node whose type (WEATHER_STATION)
resolves to no capability profile, get_node_info returns a dict holding only
node_id and type — no optional parameter at all — even though every optional
register read would succeed (here each read returns 42, and the
per-parameter getter would return it); so the caller-visible aggregate read
path fails closed rather than attempting best-effort reads. -/
theorem get_node_info_unknown_caps_closed :
    NODE_CAPABILITIES NodeType.WEATHER_STATION = none ∧
    get_node_remaining_time (some NodeType.WEATHER_STATION) 5 allReads42 = some 42 ∧
    get_node_info 5 (some NodeType.WEATHER_STATION) allReads42 =
      some { node_id := 5, type := NodeType.WEATHER_STATION,
             remaining_time_seconds := none, flow_level_percent := none,
             air_quality_rh_percent := none, air_quality_co2_percent := none,
             humidity_percent := none, co2_ppm := none } :=
  ⟨rfl, rfl, rfl⟩

/-- Claim C8, amended: when a node's type has no capability profile, each
individual per-parameter getter does treat the parameter as possibly
available and performs the best-effort register read; the aggregate
get_node_info, however, returns early with only node_id and type, so its
callers see no optional values for such a node. -/
theorem node_getters_best_effort_spec
    (t : NodeType) (node : ℕ) (reads : ℕ → Option ℤ)
    (h : NODE_CAPABILITIES t = none) :
    get_node_remaining_time (some t) node reads = reads (node_register node 2) ∧
    get_node_flow_level (some t) node reads = reads (node_register node 3) ∧
    get_node_air_quality_rh (some t) node reads = reads (node_register node 4) ∧
    get_node_air_quality_co2 (some t) node reads = reads (node_register node 5) ∧
    get_node_humidity (some t) node reads = reads (node_register node 9) ∧
    get_node_co2 (some t) node reads = reads (node_register node 10) ∧
    get_node_info node (some t) reads = some { node_id := node, type := t } := by
  have hc : get_node_capabilities (some t) = none := by
    simp [get_node_capabilities, h]
  refine ⟨?_, ?_, ?_, ?_, ?_, ?_, ?_⟩
  · simp [get_node_remaining_time, hc]
  · simp [get_node_flow_level, hc]
  · simp [get_node_air_quality_rh, hc]
  · simp [get_node_air_quality_co2, hc]
  · simp [get_node_humidity, hc]
  · simp [get_node_co2, hc]
  · simp [get_node_info, h]

/-- Claim C8, witness for the amended theorem: WEATHER_STATION (no capability
profile), node 5, all reads answering 42. -/
theorem node_getters_best_effort_spec_witness :
    get_node_remaining_time (some NodeType.WEATHER_STATION) 5 allReads42 =
      allReads42 (node_register 5 2) ∧
    get_node_flow_level (some NodeType.WEATHER_STATION) 5 allReads42 =
      allReads42 (node_register 5 3) ∧
    get_node_air_quality_rh (some NodeType.WEATHER_STATION) 5 allReads42 =
      allReads42 (node_register 5 4) ∧
    get_node_air_quality_co2 (some NodeType.WEATHER_STATION) 5 allReads42 =
      allReads42 (node_register 5 5) ∧
    get_node_humidity (some NodeType.WEATHER_STATION) 5 allReads42 =
      allReads42 (node_register 5 9) ∧
    get_node_co2 (some NodeType.WEATHER_STATION) 5 allReads42 =
      allReads42 (node_register 5 10) ∧
    get_node_info 5 (some NodeType.WEATHER_STATION) allReads42 =
      some { node_id := 5, type := NodeType.WEATHER_STATION } :=
  node_getters_best_effort_spec NodeType.WEATHER_STATION 5 allReads42 rfl

/-- Claim C2: every DucoNode record in the batch that the node-poll step
hands to the batch publisher has at least one of its six optional fields
populated; a record in which all six are absent is filtered out by the
has_data guard and is never published. -/
theorem poll_nodes_hasData_invariant
    (nodeTypeOf : ℕ → Option NodeType) (reads : ℕ → Option ℤ)
    (active : List ℕ) (n : DucoNode)
    (hmem : n ∈ poll_nodes nodeTypeOf reads active) :
    hasData n = true := by
  rw [poll_nodes, List.mem_filterMap] at hmem
  obtain ⟨nid, _, hf⟩ := hmem
  split at hf
  · exact absurd hf (by simp)
  · split at hf
    · exact absurd hf (by simp)
    · split at hf
      · exact absurd hf (by simp)
      · dsimp only at hf
        split at hf
        · obtain rfl := Option.some_injective _ hf
          assumption
        · exact absurd hf (by simp)

/-- Claim C2, witness: a single active CO2 room sensor node whose quality and
CO2 registers read 650; the resulting published record satisfies has_data. -/
theorem poll_nodes_hasData_invariant_witness :
    hasData
      { device_id := "node_" ++ toString 5
        node_id := 5
        node_type := NodeType.CO2_ROOM_SENSOR
        remaining_time_current_mode := none
        flow_rate := none
        air_quality_rh := none
        air_quality_co2 := some 650
        humidity_level := none
        co2_level := some 650 } = true :=
  poll_nodes_hasData_invariant (fun _ => some NodeType.CO2_ROOM_SENSOR)
    (fun _ => some 650) [5] _ (by decide)

/-- The Python truthiness test value & (1 << bit) is equivalent to testBit. -/
theorem and_shiftLeft_ne_zero (v bit : ℕ) :
    (v &&& (1 <<< bit) ≠ 0) ↔ v.testBit bit = true := by
  rw [Nat.shiftLeft_eq, one_mul, Nat.and_two_pow]
  cases h : v.testBit bit <;> simp [h, Nat.pow_eq_zero]

/-- Membership in the per-register contribution list. -/
theorem mem_nodes_of_register (reg value n : ℕ) :
    n ∈ nodes_of_register reg value ↔
      ∃ bit, bit < 16 ∧ value.testBit bit = true ∧ n = reg * 16 + bit ∧
        1 ≤ n ∧ n ≤ 143 := by
  rw [nodes_of_register, List.mem_filterMap]
  constructor
  · rintro ⟨bit, hbit, hf⟩
    rw [List.mem_range] at hbit
    by_cases h1 : value &&& (1 <<< bit) ≠ 0
    · rw [if_pos h1] at hf
      by_cases h2 : 1 ≤ reg * 16 + bit ∧ reg * 16 + bit ≤ 143
      · rw [if_pos h2] at hf
        obtain rfl := Option.some_injective _ hf
        exact ⟨bit, hbit, (and_shiftLeft_ne_zero _ _).1 h1, rfl, h2.1, h2.2⟩
      · rw [if_neg h2] at hf
        exact absurd hf (by simp)
    · rw [if_neg h1] at hf
      exact absurd hf (by simp)
  · rintro ⟨bit, hbit, htb, rfl, h1, h2⟩
    refine ⟨bit, List.mem_range.mpr hbit, ?_⟩
    rw [if_pos ((and_shiftLeft_ne_zero _ _).2 htb), if_pos ⟨h1, h2⟩]

/-- Membership in one register read's contribution. -/
theorem mem_nodes_of_read (read : ℕ → Option ℕ) (reg n : ℕ) :
    n ∈ nodes_of_read read reg ↔
      ∃ v, read reg = some v ∧ n ∈ nodes_of_register reg v := by
  rw [nodes_of_read]
  cases h : read reg <;> simp [h]

/-- Every contributed node id lies in the 16-id window of its register. -/
theorem nodes_of_read_bounds (read : ℕ → Option ℕ) (reg n : ℕ)
    (h : n ∈ nodes_of_read read reg) : reg * 16 ≤ n ∧ n < reg * 16 + 16 := by
  rw [mem_nodes_of_read] at h
  obtain ⟨v, _, hv⟩ := h
  rw [mem_nodes_of_register] at hv
  obtain ⟨bit, hbit, _, rfl, _, _⟩ := hv
  omega

/-- The per-register contribution has no duplicates. -/
theorem nodup_nodes_of_register (reg value : ℕ) :
    (nodes_of_register reg value).Nodup := by
  rw [nodes_of_register]
  refine List.Nodup.filterMap ?_ (List.nodup_range 16)
  intro a a' b hb hb'
  simp only [Option.mem_def] at hb hb'
  split_ifs at hb hb' <;> simp_all <;> omega

/-- The accumulated discovery list has no duplicates: ids from different
registers live in disjoint windows, and within one register each bit yields
a distinct id. -/
theorem nodup_get_active_nodes_unsorted (read : ℕ → Option ℕ) :
    (get_active_nodes_unsorted read).Nodup := by
  rw [get_active_nodes_unsorted, List.nodup_flatMap]
  constructor
  · intro reg _
    rw [nodes_of_read]
    cases h : read reg
    · exact List.nodup_nil
    · exact nodup_nodes_of_register reg _
  · have : List.Pairwise (· < ·) (List.range 9) := List.pairwise_lt_range 9
    refine this.imp ?_
    intro r1 r2 hlt
    intro a ha1 ha2
    have h1 := nodes_of_read_bounds read r1 a ha1
    have h2 := nodes_of_read_bounds read r2 a ha2
    omega

/-- Claim C4: get_active_nodes reads the 9 discovery bitfield registers, and
for every read oracle its result contains a node id n exactly when some
register reg < 9 was read successfully with a value whose bit
(n - reg * 16) < 16 is set — that is, n = reg * 16 + bit for a set bit — and
n lies in the valid range [1,143]; moreover the result is sorted ascending
and has no duplicates. -/
theorem get_active_nodes_spec (read : ℕ → Option ℕ) (n : ℕ) :
    (n ∈ get_active_nodes read ↔
      ∃ reg, reg < 9 ∧ ∃ v, read reg = some v ∧
        ∃ bit, bit < 16 ∧ v.testBit bit = true ∧ n = reg * 16 + bit ∧
          1 ≤ n ∧ n ≤ 143) ∧
    List.Sorted (· ≤ ·) (get_active_nodes read) ∧
    (get_active_nodes read).Nodup := by
  refine ⟨?_, ?_, ?_⟩
  · rw [get_active_nodes,
      (List.perm_insertionSort (· ≤ ·) (get_active_nodes_unsorted read)).mem_iff,
      get_active_nodes_unsorted, List.mem_flatMap]
    constructor
    · rintro ⟨reg, hreg, hmem⟩
      rw [List.mem_range] at hreg
      rw [mem_nodes_of_read] at hmem
      obtain ⟨v, hv, hmem⟩ := hmem
      rw [mem_nodes_of_register] at hmem
      obtain ⟨bit, hbit, htb, hn, h1, h2⟩ := hmem
      exact ⟨reg, hreg, v, hv, bit, hbit, htb, hn, h1, h2⟩
    · rintro ⟨reg, hreg, v, hv, bit, hbit, htb, hn, h1, h2⟩
      refine ⟨reg, List.mem_range.mpr hreg, ?_⟩
      rw [mem_nodes_of_read]
      exact ⟨v, hv, (mem_nodes_of_register reg v n).2 ⟨bit, hbit, htb, hn, h1, h2⟩⟩
  · exact List.sorted_insertionSort (· ≤ ·) _
  · exact (List.perm_insertionSort (· ≤ ·) _).nodup_iff.mpr
      (nodup_get_active_nodes_unsorted read)

/-- Truncation toward zero differs from its argument by less than one. -/
theorem abs_sub_pythonIntTrunc_lt_one (q : ℚ) : |q - (pythonIntTrunc q : ℚ)| < 1 := by
  rw [pythonIntTrunc]
  split_ifs with h
  · have h1 := Int.floor_le q
    have h2 := Int.lt_floor_add_one q
    rw [abs_lt]
    constructor <;> linarith
  · have h1 := Int.le_ceil q
    have h2 := Int.ceil_lt_add_one q
    rw [abs_lt]
    constructor <;> linarith

/-- Truncation toward zero stays within the int16 window when the argument
does. -/
theorem pythonIntTrunc_bounds (q : ℚ) (h1 : -32768 ≤ q) (h2 : q ≤ 32767) :
    -32768 ≤ pythonIntTrunc q ∧ pythonIntTrunc q ≤ 32767 := by
  rw [pythonIntTrunc]
  split_ifs with h
  · constructor
    · have h0 : (0 : ℤ) ≤ ⌊q⌋ := Int.floor_nonneg.mpr h
      omega
    · have hle : (⌊q⌋ : ℚ) ≤ 32767 := le_trans (Int.floor_le q) h2
      exact_mod_cast hle
  · push_neg at h
    constructor
    · have hge : (-32768 : ℚ) ≤ (⌈q⌉ : ℚ) := le_trans h1 (Int.le_ceil q)
      exact_mod_cast hge
    · have hlt : (⌈q⌉ : ℚ) < q + 1 := Int.ceil_lt_add_one q
      have hlt1 : (⌈q⌉ : ℚ) < 1 := lt_of_lt_of_le hlt (by linarith)
      have hint : ⌈q⌉ < 1 := by exact_mod_cast hlt1
      omega

/-- Claim C3: for every raw 16-bit register value v, the decoder returns
v / 10 when v < 32768 and (v - 65536) / 10 otherwise; and for every
temperature x in [-3276.8, 3276.7], decoding the encoded register image of x
recovers x to within 0.1 degrees. -/
theorem convert_temperature_spec :
    (∀ v : ℕ, v ≤ 65535 →
      convert_temperature (some v) =
        some (if v < 32768 then (v : ℚ) / 10 else ((v : ℚ) - 65536) / 10)) ∧
    (∀ x : ℚ, -32768 / 10 ≤ x → x ≤ 32767 / 10 →
      |(convert_temperature (some (encode_temperature x))).getD 0 - x| ≤ 1 / 10) := by
  constructor
  · intro v _
    simp only [convert_temperature]
    by_cases h : v < 32768
    · rw [if_neg (by omega), if_pos h]
    · rw [if_pos (by omega), if_neg h]
  · intro x hx1 hx2
    set t := pythonIntTrunc (x * 10) with ht
    have hq1 : (-32768 : ℚ) ≤ x * 10 := by linarith
    have hq2 : x * 10 ≤ 32767 := by linarith
    obtain ⟨ht1, ht2⟩ := pythonIntTrunc_bounds (x * 10) hq1 hq2
    have habs : |x * 10 - (t : ℚ)| < 1 := abs_sub_pythonIntTrunc_lt_one (x * 10)
    have hdec : (convert_temperature (some (encode_temperature x))).getD 0 =
        (t : ℚ) / 10 := by
      simp only [encode_temperature]
      rw [← ht]
      by_cases h0 : 0 ≤ t
      · have hmod : t % 65536 = t := by omega
        rw [hmod]
        simp only [convert_temperature, Option.getD_some]
        rw [if_neg (by omega)]
        congr 1
        exact_mod_cast Int.toNat_of_nonneg h0
      · push_neg at h0
        have hmod : t % 65536 = t + 65536 := by omega
        rw [hmod]
        simp only [convert_temperature, Option.getD_some]
        rw [if_pos (by omega)]
        have hcast : (((t + 65536).toNat : ℕ) : ℚ) = (t : ℚ) + 65536 := by
          have hz : (((t + 65536).toNat : ℕ) : ℤ) = t + 65536 :=
            Int.toNat_of_nonneg (by omega)
          exact_mod_cast hz
        rw [hcast]
        ring
    rw [hdec]
    have hrw : (t : ℚ) / 10 - x = ((t : ℚ) - x * 10) / 10 := by ring
    rw [hrw, abs_div]
    have h10 : |(10 : ℚ)| = 10 := by norm_num
    rw [h10]
    have hle : |(t : ℚ) - x * 10| ≤ 1 := by
      rw [abs_sub_comm]
      linarith
    linarith

/-- Claim C3, witness: the decoder formula at the raw value 40000 and the
round trip at the temperature -123.4 degrees. -/
theorem convert_temperature_spec_witness :
    convert_temperature (some 40000) =
      some (if (40000 : ℕ) < 32768 then ((40000 : ℕ) : ℚ) / 10
            else (((40000 : ℕ) : ℚ) - 65536) / 10) ∧
    |(convert_temperature (some (encode_temperature (-1234 / 10)))).getD 0 -
      (-1234 / 10)| ≤ 1 / 10 :=
  ⟨convert_temperature_spec.1 40000 (by norm_num),
   convert_temperature_spec.2 (-1234 / 10) (by norm_num) (by norm_num)⟩

end SHome
